import Mathlib

/-!
Shallow embedding of the FIFA market-insights dashboard (src/app.py and
src/diag_app.py). The application builds four BigQuery query templates —
a model prediction, a value-bucket histogram, a Top-10 grouping, and a
scatter sample — adapting to which tables and columns exist in the
dataset. Queries are modelled as structured values (dimension, filters,
ordering, limit, bound parameters); the CASE expressions of the SQL are
modelled as Lean functions; the warehouse itself is abstract.
-/

/-- Ordering key of a built query: mirrors the distinct ORDER BY clauses
that occur in app.py. `rand` carries an optional seed; the source's
`ORDER BY RAND()` has none. -/
inductive OrderBy
  | avgValueDesc
  | bucketCaseKey
  | ageCaseKey
  | rand (seed : Option Nat)
deriving DecidableEq

/-- True exactly for the randomized ordering. -/
def OrderBy.isRand : OrderBy → Bool
  | .rand _ => true
  | _ => false

/-- The CASE expression of sql_buckets (app.py lines 180-187): classify a
non-null value_eur into one of six labels, branches tried in order. -/
def value_bucket (v : Int) : String :=
  if v < 1000000 then "<1M"
  else if v < 5000000 then "1M–5M"
  else if v < 10000000 then "5M–10M"
  else if v < 20000000 then "10M–20M"
  else if v < 50000000 then "20M–50M"
  else "≥50M"

/-- The six bucket labels in the fixed semantic order used by the
ORDER BY clause of sql_buckets. -/
def bucketLabels : List String :=
  ["<1M", "1M–5M", "5M–10M", "10M–20M", "20M–50M", "≥50M"]

/-- The ORDER BY CASE key of sql_buckets (app.py lines 194-202). -/
def bucket_order (b : String) : Nat :=
  if b = "<1M" then 1
  else if b = "1M–5M" then 2
  else if b = "5M–10M" then 3
  else if b = "10M–20M" then 4
  else if b = "20M–50M" then 5
  else 6

/-- Comparison of histogram rows by the bucket ORDER BY key; the count
component of a row is ignored. -/
def bucketRowLe (a b : String × Nat) : Prop := bucket_order a.1 ≤ bucket_order b.1

instance : DecidableRel bucketRowLe := fun a b => Nat.decLe (bucket_order a.1) (bucket_order b.1)

instance : IsTotal (String × Nat) bucketRowLe := ⟨fun _ _ => Nat.le_total _ _⟩

instance : IsTrans (String × Nat) bucketRowLe := ⟨fun _ _ _ => Nat.le_trans⟩

/-- Result of sql_buckets on a column of (possibly null) value_eur
values: drop nulls (WHERE value_eur IS NOT NULL), classify each value
(the CASE), group by bucket with counts (GROUP BY / COUNT), and sort by
the fixed CASE key (ORDER BY). -/
def sql_buckets_rows (vs : List (Option Int)) : List (String × Nat) :=
  let nonNull := vs.filterMap id
  let present := (nonNull.map value_bucket).dedup
  List.insertionSort bucketRowLe
    (present.map fun b => (b, (nonNull.filter fun v => value_bucket v == b).length))

/-- The CASE expression of the age-bracket fallback of sql_top (app.py
lines 247-255): NULL age maps to Unknown, otherwise six brackets tried
in order. -/
def age_group (age : Option Int) : String :=
  match age with
  | none => "Unknown"
  | some a =>
    if a < 20 then "<20"
    else if 20 ≤ a ∧ a ≤ 22 then "20–22"
    else if 23 ≤ a ∧ a ≤ 25 then "23–25"
    else if 26 ≤ a ∧ a ≤ 28 then "26–28"
    else if 29 ≤ a ∧ a ≤ 31 then "29–31"
    else "32+"

/-- Python's str.lower, modelled character-wise over the string's
character list. -/
def pyLower (s : String) : String := ⟨s.data.map Char.toLower⟩

/-- first_existing (app.py lines 68-72): first candidate whose
lower-casing is in the available (already lower-cased) column set. -/
def first_existing (candidates : List String) (available : List String) : Option String :=
  candidates.find? fun c => available.contains (pyLower c)

/-- Grouping dimension of the Top-10 query: an actual column, or the
synthesized age-bracket expression. -/
inductive GroupDim
  | column (name : String)
  | ageBracket
deriving DecidableEq

/-- Structured content of a Top-10 grouping query: grouping dimension,
optional HAVING COUNT(*) >= n threshold, ORDER BY key, LIMIT. -/
structure TopQuery where
  dim : GroupDim
  having_min : Option Nat
  order : OrderBy
  lim : Nat
deriving DecidableEq

/-- The first two branches of the Top-10 builder (app.py lines 207-240):
nationality dimension with a >= 30 filter, else club/league dimension
with a >= 20 filter, else nothing yet (sql_top is still None). -/
def sql_top_first (available : List String) : Option TopQuery :=
  match first_existing ["nationality_name", "nationality"] available with
  | some dim => some ⟨.column dim, some 30, .avgValueDesc, 10⟩
  | none =>
    match first_existing ["club_name", "league_name"] available with
    | some dim => some ⟨.column dim, some 20, .avgValueDesc, 10⟩
    | none => none

/-- The complete Top-10 builder (app.py lines 207-275): when no
dimension column was found, the age-bracket query with no HAVING filter
and the fixed age CASE ordering is built instead. -/
def sql_top (available : List String) : TopQuery :=
  match sql_top_first available with
  | some q => q
  | none => ⟨.ageBracket, none, .ageCaseKey, 10⟩

/-- Structured content of the scatter-sample query (app.py lines
283-289): x column, ORDER BY RAND() (no seed), LIMIT 2000. -/
structure ScatterQuery where
  x_col : String
  order : OrderBy
  lim : Nat
deriving DecidableEq

/-- The x-column choice for the scatter chart (app.py line 280):
overall if present, else potential if present, else nothing. -/
def scatter_x_col (available : List String) : Option String :=
  if available.contains "overall" then some "overall"
  else if available.contains "potential" then some "potential"
  else none

/-- The scatter builder: a query is built exactly when an x column was
chosen (app.py lines 282-289). -/
def sql_scatter (available : List String) : Option ScatterQuery :=
  (scatter_x_col available).map fun x => ⟨x, .rand none, 2000⟩

/-- df_scatter starts as an empty frame and is filled only when a query
was built (app.py lines 281-290); `run` abstracts the warehouse
executing a built query. -/
def df_scatter (available : List String) (run : ScatterQuery → List (Int × Int)) :
    List (Int × Int) :=
  match sql_scatter available with
  | none => []
  | some q => run q

/-- What the scatter area of the page shows. -/
inductive ScatterDisplay
  | info (msg : String)
  | chart
deriving DecidableEq

/-- Informational text shown in place of the scatter chart
(app.py line 310). -/
def scatter_skipped_message : String :=
  "Missing both \x27overall\x27 and \x27potential\x27 — scatter skipped."

/-- The scatter area (app.py lines 309-312): the informational message
when df_scatter is empty, else the chart. -/
def scatter_display (rows : List (Int × Int)) : ScatterDisplay :=
  if rows.isEmpty then .info scatter_skipped_message else .chart

/-- What the Top-10 area of the page shows. -/
inductive TopDisplay
  | info (msg : String)
  | chart (label : String)
deriving DecidableEq

/-- Informational text shown in place of the Top-10 chart
(app.py lines 300-303). -/
def top_skipped_message : String :=
  "This table has neither \x27nationality\x27 nor \x27nationality_name\x27 and also lacks fallback columns (\x27club_name\x27 / \x27league_name\x27). — chart skipped."

/-- The caption chosen alongside the Top-10 query
(app.py lines 212, 228, 243). -/
def top_label (available : List String) : String :=
  match first_existing ["nationality_name", "nationality"] available with
  | some _ => "Top 10 nationalities by average value (€)"
  | none =>
    match first_existing ["club_name", "league_name"] available with
    | some dim => "Top 10 by average value (€) — grouped by " ++ dim
    | none => "Top age groups by average value (€)"

/-- The Top-10 area of the page (app.py lines 298-306): the Top-10 query
built from the available columns is executed, and the informational
message is shown exactly when the result frame is empty; `run` abstracts
the warehouse. A result row is (grp, avg_value, num_players). -/
def top_chart (available : List String) (run : TopQuery → List (String × Int × Nat)) :
    TopDisplay :=
  if (run (sql_top available)).isEmpty then .info top_skipped_message
  else .chart (top_label available)

/-- Error text of resolve_table_ids when neither table-name variant
exists (app.py lines 43-46). -/
def notFoundMessage (datasetRef : String) (foundSorted : List String) : String :=
  "No table named \x27players\x27 or \x27player\x27 in " ++ datasetRef ++ ". Found: " ++
    toString foundSorted

/-- resolve_table_ids (app.py lines 28-49): lower-case the dataset's
table ids into a set, pick the first of ("players", "player") that is
present, and return (backticked, plain, short) names; otherwise fail
with a message enumerating the sorted found names. -/
def resolve_table_ids (project dataset : String) (tableIds : List String) :
    Except String (String × String × String) :=
  let datasetRef := project ++ "." ++ dataset
  let found := (tableIds.map pyLower).dedup
  match ["players", "player"].find? (fun c => found.contains c) with
  | some chosen =>
    let plain := datasetRef ++ "." ++ chosen
    Except.ok ("`" ++ plain ++ "`", plain, chosen)
  | none => Except.error (notFoundMessage datasetRef (List.insertionSort (· ≤ ·) found))

/-- A typed scalar query parameter as handed to the warehouse client
(name, declared type, value). -/
structure ScalarQueryParameter where
  name : String
  paramType : String
  value : Int
deriving DecidableEq

/-- The parameter list of the prediction query (app.py lines 101-115):
thirteen named parameters, each declared INT64. -/
def predict_params (age overall potential skill_moves wage_eur
    international_reputation weak_foot pace shooting passing dribbling
    defending physic : Int) : List ScalarQueryParameter :=
  [⟨"age", "INT64", age⟩,
   ⟨"overall", "INT64", overall⟩,
   ⟨"potential", "INT64", potential⟩,
   ⟨"skill_moves", "INT64", skill_moves⟩,
   ⟨"wage_eur", "INT64", wage_eur⟩,
   ⟨"international_reputation", "INT64", international_reputation⟩,
   ⟨"weak_foot", "INT64", weak_foot⟩,
   ⟨"pace", "INT64", pace⟩,
   ⟨"shooting", "INT64", shooting⟩,
   ⟨"passing", "INT64", passing⟩,
   ⟨"dribbling", "INT64", dribbling⟩,
   ⟨"defending", "INT64", defending⟩,
   ⟨"physic", "INT64", physic⟩]

/-- Structured content of the ML.PREDICT query (app.py lines 79-100):
the model name, the nested input-row SELECT as a list of
(bound parameter reference, output field alias) pairs, and the bound
parameter list. -/
structure PredictQuery where
  model : String
  inputRow : List (String × String)
  params : List ScalarQueryParameter
deriving DecidableEq

/-- The prediction query builder of predict_value (app.py lines 74-116):
the nested SELECT binds @name AS name for each of the thirteen fields,
with the parameter list of predict_params. -/
def sql_predict (model : String) (age overall potential skill_moves wage_eur
    international_reputation weak_foot pace shooting passing dribbling
    defending physic : Int) : PredictQuery :=
  ⟨model,
   [("@age", "age"),
    ("@overall", "overall"),
    ("@potential", "potential"),
    ("@skill_moves", "skill_moves"),
    ("@wage_eur", "wage_eur"),
    ("@international_reputation", "international_reputation"),
    ("@weak_foot", "weak_foot"),
    ("@pace", "pace"),
    ("@shooting", "shooting"),
    ("@passing", "passing"),
    ("@dribbling", "dribbling"),
    ("@defending", "defending"),
    ("@physic", "physic")],
   predict_params age overall potential skill_moves wage_eur
     international_reputation weak_foot pace shooting passing dribbling
     defending physic⟩

/-- Result handling of predict_value (app.py line 117): read the
predicted_value_eur column of row 0 of the query result. A result row is
an association list from column name to value. -/
def predict_value_result (rows : List (List (String × Int))) : Option Int :=
  match rows with
  | [] => none
  | r :: _ => (r.find? fun c => c.1 == "predicted_value_eur").map Prod.snd

/-- Streamlit secrets as visible to the credential code: whether the
gcp_service_account entry is present, and its project id. -/
structure StreamlitSecrets where
  hasGcpServiceAccount : Bool
  projectId : String
deriving DecidableEq

/-- Environment available to client construction. A service-account key
file may exist on the local filesystem (localCredFilePath); the code of
get_bq_client_and_project never consults it — it only checks the
Streamlit secrets. -/
structure CredentialEnv where
  secrets : StreamlitSecrets
  localCredFilePath : Option String
deriving DecidableEq

/-- Where the constructed client's credential material comes from. -/
inductive CredSource
  | localFile (path : String)
  | secretStore
  | ambientDefault
deriving DecidableEq

/-- get_bq_client_and_project (app.py lines 10-21): credentials from the
gcp_service_account secrets entry when present, else the ambient default
credentials with the hard-coded project big-query-fifa. -/
def get_bq_client_and_project (env : CredentialEnv) : CredSource × String :=
  if env.secrets.hasGcpServiceAccount then (.secretStore, env.secrets.projectId)
  else (.ambientDefault, "big-query-fifa")

/-- Session state relevant to the prediction metric. -/
structure PredPageState where
  pred_val : Option Int
  warnings : List String
deriving DecidableEq

/-- The predict-button handler (app.py lines 156-165): on success store
the value; on failure set the stored value to None, append a warning,
and in both cases the page keeps rendering (the returned flag). -/
def predict_click (prev : PredPageState) (result : Except String Int) :
    PredPageState × Bool :=
  match result with
  | .ok v => ({ pred_val := some v, warnings := prev.warnings }, true)
  | .error e =>
    ({ pred_val := none, warnings := prev.warnings ++ ["Prediction failed: " ++ e] }, true)

/-- Clause-level content of the bucket-histogram query (app.py lines
177-203): it filters null value_eur out, groups by the CASE bucket, and
carries its ORDER BY key; its row semantics are sql_buckets_rows. -/
structure BucketQuery where
  whereNotNull : Bool
  groupByBucket : Bool
  order : OrderBy
deriving DecidableEq

/-- The bucket-histogram query as built: a fixed value — the builder
takes no request parameters and consults no random source. -/
def sql_buckets_query : BucketQuery := ⟨true, true, .bucketCaseKey⟩

/-- C1: for every set of available columns, the Top-10 grouping query
selects its dimension in priority order — first present of
nationality_name, nationality (HAVING COUNT >= 30); else first present
of club_name, league_name (HAVING COUNT >= 20); else the synthesized
age-bracket dimension with no group-size filter, whose CASE yields the
six fixed brackets <20, 20–22, 23–25, 26–28, 29–31, 32+ and Unknown for
null age. -/
theorem C1_top_dimension_priority_and_filters (available : List String) :
    ("nationality_name" ∈ available →
      sql_top available = ⟨.column "nationality_name", some 30, .avgValueDesc, 10⟩) ∧
    ("nationality_name" ∉ available → "nationality" ∈ available →
      sql_top available = ⟨.column "nationality", some 30, .avgValueDesc, 10⟩) ∧
    ("nationality_name" ∉ available → "nationality" ∉ available → "club_name" ∈ available →
      sql_top available = ⟨.column "club_name", some 20, .avgValueDesc, 10⟩) ∧
    ("nationality_name" ∉ available → "nationality" ∉ available → "club_name" ∉ available →
      "league_name" ∈ available →
      sql_top available = ⟨.column "league_name", some 20, .avgValueDesc, 10⟩) ∧
    ("nationality_name" ∉ available → "nationality" ∉ available → "club_name" ∉ available →
      "league_name" ∉ available →
      sql_top available = ⟨.ageBracket, none, .ageCaseKey, 10⟩) ∧
    age_group none = "Unknown" ∧
    (∀ a : Int, age_group (some a) = "<20" ↔ a < 20) ∧
    (∀ a : Int, age_group (some a) = "20–22" ↔ 20 ≤ a ∧ a ≤ 22) ∧
    (∀ a : Int, age_group (some a) = "23–25" ↔ 23 ≤ a ∧ a ≤ 25) ∧
    (∀ a : Int, age_group (some a) = "26–28" ↔ 26 ≤ a ∧ a ≤ 28) ∧
    (∀ a : Int, age_group (some a) = "29–31" ↔ 29 ≤ a ∧ a ≤ 31) ∧
    (∀ a : Int, age_group (some a) = "32+" ↔ 32 ≤ a) := by
  have e1 : pyLower "nationality_name" = "nationality_name" := by decide
  have e2 : pyLower "nationality" = "nationality" := by decide
  have e3 : pyLower "club_name" = "club_name" := by decide
  have e4 : pyLower "league_name" = "league_name" := by decide
  refine ⟨?_, ?_, ?_, ?_, ?_, rfl, ?_, ?_, ?_, ?_, ?_, ?_⟩
  · intro h1
    simp [sql_top, sql_top_first, first_existing, List.find?, e1, e2, e3, e4,
      List.contains, List.elem_iff, h1]
  · intro h1 h2
    simp [sql_top, sql_top_first, first_existing, List.find?, e1, e2, e3, e4,
      List.contains, List.elem_iff, h1, h2]
  · intro h1 h2 h3
    simp [sql_top, sql_top_first, first_existing, List.find?, e1, e2, e3, e4,
      List.contains, List.elem_iff, h1, h2, h3]
  · intro h1 h2 h3 h4
    simp [sql_top, sql_top_first, first_existing, List.find?, e1, e2, e3, e4,
      List.contains, List.elem_iff, h1, h2, h3, h4]
  · intro h1 h2 h3 h4
    simp [sql_top, sql_top_first, first_existing, List.find?, e1, e2, e3, e4,
      List.contains, List.elem_iff, h1, h2, h3, h4]
  · intro a
    simp only [age_group]
    split_ifs with h1 h2 h3 h4 h5 <;> simp <;> omega
  · intro a
    simp only [age_group]
    split_ifs with h1 h2 h3 h4 h5 <;> simp <;> omega
  · intro a
    simp only [age_group]
    split_ifs with h1 h2 h3 h4 h5 <;> simp <;> omega
  · intro a
    simp only [age_group]
    split_ifs with h1 h2 h3 h4 h5 <;> simp <;> omega
  · intro a
    simp only [age_group]
    split_ifs with h1 h2 h3 h4 h5 <;> simp <;> omega
  · intro a
    simp only [age_group]
    split_ifs with h1 h2 h3 h4 h5 <;> simp <;> omega

/-- Witness for C1 at a concrete column set that lacks both nationality
variants but has club_name: the club dimension with its >= 20 filter is
chosen. -/
theorem C1_top_dimension_priority_and_filters_witness :
    sql_top ["club_name", "value_eur"] =
      ⟨.column "club_name", some 20, .avgValueDesc, 10⟩ :=
  (C1_top_dimension_priority_and_filters ["club_name", "value_eur"]).2.2.1
    (by decide) (by decide) (by decide)

/-- C2: the bucket classification is total and non-overlapping on
non-null values — every non-null value_eur lands in exactly one of the
six labels, with each label characterized by a half-open-above range
(exactly 1000000 is in 1M–5M, not <1M) — and the histogram rows come out
sorted by the fixed semantic ORDER BY CASE key (which ranks the six
labels 1..6 in semantic order and ignores counts), not by count. -/
theorem C2_bucket_totality_partition_and_order (v : Int) :
    value_bucket v ∈ bucketLabels ∧
    (value_bucket v = "<1M" ↔ v < 1000000) ∧
    (value_bucket v = "1M–5M" ↔ 1000000 ≤ v ∧ v < 5000000) ∧
    (value_bucket v = "5M–10M" ↔ 5000000 ≤ v ∧ v < 10000000) ∧
    (value_bucket v = "10M–20M" ↔ 10000000 ≤ v ∧ v < 20000000) ∧
    (value_bucket v = "20M–50M" ↔ 20000000 ≤ v ∧ v < 50000000) ∧
    (value_bucket v = "≥50M" ↔ 50000000 ≤ v) ∧
    value_bucket 1000000 = "1M–5M" ∧
    bucketLabels.Nodup ∧
    bucketLabels.map bucket_order = [1, 2, 3, 4, 5, 6] ∧
    (∀ vs : List (Option Int), List.Sorted bucketRowLe (sql_buckets_rows vs)) ∧
    (∀ vs : List (Option Int), ∀ r ∈ sql_buckets_rows vs, r.1 ∈ bucketLabels) := by
  refine ⟨?_, ?_, ?_, ?_, ?_, ?_, ?_, by decide, by decide, by decide, ?_, ?_⟩
  · unfold value_bucket bucketLabels
    split_ifs <;> simp
  · unfold value_bucket
    split_ifs <;> simp <;> omega
  · unfold value_bucket
    split_ifs <;> simp <;> omega
  · unfold value_bucket
    split_ifs <;> simp <;> omega
  · unfold value_bucket
    split_ifs <;> simp <;> omega
  · unfold value_bucket
    split_ifs <;> simp <;> omega
  · unfold value_bucket
    split_ifs <;> simp <;> omega
  · intro vs
    exact List.sorted_insertionSort bucketRowLe _
  · intro vs r hr
    unfold sql_buckets_rows at hr
    rw [List.mem_insertionSort] at hr
    simp only [List.mem_map] at hr
    obtain ⟨b, hb, rfl⟩ := hr
    rw [List.mem_dedup, List.mem_map] at hb
    obtain ⟨w, _, rfl⟩ := hb
    unfold value_bucket bucketLabels
    split_ifs <;> simp

/-- Witness for C2: the million boundary evaluated through the theorem
at a concrete value. -/
theorem C2_bucket_totality_partition_and_order_witness :
    value_bucket 1000000 = "1M–5M" :=
  (C2_bucket_totality_partition_and_order 0).2.2.2.2.2.2.2.1

/-- C3 counterexample: with no optional dimension column available, the
Top-10 builder produces the age-bracket query, and that query is ordered
by the fixed age CASE key, not by descending average value — refuting
the claim that every dimension choice orders by descending average. -/
theorem C3_counterexample_age_fallback_order :
    sql_top [] = ⟨.ageBracket, none, .ageCaseKey, 10⟩ ∧
    OrderBy.ageCaseKey ≠ OrderBy.avgValueDesc := by
  refine ⟨by decide, by decide⟩

/-- C3 amended: every Top-10 query is limited to 10 rows; whenever a
real column dimension (nationality or club/league) is chosen the groups
are ordered by descending average value, while the age-bracket fallback
is ordered by the fixed age-bracket CASE key. -/
theorem C3_top_order_and_limit (available : List String) :
    (sql_top available).lim = 10 ∧
    (∀ d, (sql_top available).dim = GroupDim.column d →
      (sql_top available).order = OrderBy.avgValueDesc) ∧
    ((sql_top available).dim = GroupDim.ageBracket →
      (sql_top available).order = OrderBy.ageCaseKey ∧
      (sql_top available).having_min = none) := by
  unfold sql_top sql_top_first
  cases h1 : first_existing ["nationality_name", "nationality"] available with
  | some d => simp
  | none =>
    cases h2 : first_existing ["club_name", "league_name"] available with
    | some d => simp
    | none => simp

/-- Witness for C3 at a concrete column set: the nationality dimension
is a column dimension, so its ordering is by descending average. -/
theorem C3_top_order_and_limit_witness :
    (sql_top ["nationality"]).order = OrderBy.avgValueDesc :=
  (C3_top_order_and_limit ["nationality"]).2.1 "nationality" (by decide)

/-- C4: the scatter builder uses overall when present, else potential
when present; when neither is present no query is built, the scatter
frame stays empty regardless of the warehouse, and the chart area shows
the missing-both message instead of erroring; every built query samples
randomly with its row count capped at 2000. -/
theorem C4_scatter_column_choice_and_cap (available : List String) :
    ("overall" ∈ available → scatter_x_col available = some "overall") ∧
    ("overall" ∉ available → "potential" ∈ available →
      scatter_x_col available = some "potential") ∧
    ("overall" ∉ available → "potential" ∉ available →
      scatter_x_col available = none ∧ sql_scatter available = none ∧
      ∀ run, df_scatter available run = [] ∧
        scatter_display (df_scatter available run) = .info scatter_skipped_message) ∧
    (∀ q, sql_scatter available = some q →
      q.lim = 2000 ∧ q.order = OrderBy.rand none) := by
  refine ⟨?_, ?_, ?_, ?_⟩
  · intro h1
    simp [scatter_x_col, List.contains, List.elem_iff, h1]
  · intro h1 h2
    simp [scatter_x_col, List.contains, List.elem_iff, h1, h2]
  · intro h1 h2
    have hx : scatter_x_col available = none := by
      simp [scatter_x_col, List.contains, List.elem_iff, h1, h2]
    refine ⟨hx, ?_, ?_⟩
    · simp [sql_scatter, hx]
    · intro run
      have hd : df_scatter available run = [] := by
        simp [df_scatter, sql_scatter, hx]
      exact ⟨hd, by simp [scatter_display, hd]⟩
  · intro q hq
    unfold sql_scatter at hq
    cases hx : scatter_x_col available with
    | none => rw [hx] at hq; simp at hq
    | some x =>
      rw [hx] at hq
      simp only [Option.map_some'] at hq
      cases hq
      exact ⟨rfl, rfl⟩

/-- Witness for C4 at a concrete column set with only potential: the
scatter x column falls back to potential. -/
theorem C4_scatter_column_choice_and_cap_witness :
    scatter_x_col ["potential", "value_eur"] = some "potential" :=
  (C4_scatter_column_choice_and_cap ["potential", "value_eur"]).2.1
    (by decide) (by decide)

/-- C5: resolve_table_ids prefers the players variant, falls back to the
player variant, and when neither is present fails with the not-found
message whose enumerated (sorted) list contains exactly the table names
actually found in the dataset. -/
theorem C5_resolve_table_variant_priority (project dataset : String)
    (tableIds : List String) :
    ("players" ∈ (tableIds.map pyLower).dedup →
      resolve_table_ids project dataset tableIds =
        Except.ok ("`" ++ (project ++ "." ++ dataset ++ "." ++ "players") ++ "`",
          project ++ "." ++ dataset ++ "." ++ "players", "players")) ∧
    ("players" ∉ (tableIds.map pyLower).dedup →
      "player" ∈ (tableIds.map pyLower).dedup →
      resolve_table_ids project dataset tableIds =
        Except.ok ("`" ++ (project ++ "." ++ dataset ++ "." ++ "player") ++ "`",
          project ++ "." ++ dataset ++ "." ++ "player", "player")) ∧
    ("players" ∉ (tableIds.map pyLower).dedup →
      "player" ∉ (tableIds.map pyLower).dedup →
      resolve_table_ids project dataset tableIds =
        Except.error (notFoundMessage (project ++ "." ++ dataset)
          (List.insertionSort (· ≤ ·) (tableIds.map pyLower).dedup)) ∧
      ∀ t : String, t ∈ List.insertionSort (· ≤ ·) (tableIds.map pyLower).dedup ↔
        t ∈ (tableIds.map pyLower).dedup) := by
  refine ⟨?_, ?_, ?_⟩
  · intro h1
    simp [resolve_table_ids, List.find?, List.contains, List.elem_iff, h1]
  · intro h1 h2
    simp [resolve_table_ids, List.find?, List.contains, List.elem_iff, h1, h2]
  · intro h1 h2
    refine ⟨?_, ?_⟩
    · simp [resolve_table_ids, List.find?, List.contains, List.elem_iff, h1, h2]
    · intro t
      exact List.mem_insertionSort (· ≤ ·)

/-- Witness for C5 at a concrete dataset whose only table is Player
(upper-cased on purpose): the player variant is chosen after
lower-casing. -/
theorem C5_resolve_table_variant_priority_witness :
    resolve_table_ids "p" "d" ["Player"] =
      Except.ok ("`" ++ ("p" ++ "." ++ "d" ++ "." ++ "player") ++ "`",
        "p" ++ "." ++ "d" ++ "." ++ "player", "player") :=
  (C5_resolve_table_variant_priority "p" "d" ["Player"]).2.1 (by decide) (by decide)

/-- C6: for every prediction request the built query binds exactly the
thirteen named fields, each typed INT64, carrying exactly the request's
values, the nested input row aliases each bound parameter to the field
of the same name, and the result handling reads the predicted-value
column of the first output row only (rows beyond the first never
influence the value). -/
theorem C6_predict_bindings (model : String) (age overall potential skill_moves
    wage_eur international_reputation weak_foot pace shooting passing dribbling
    defending physic : Int) :
    (sql_predict model age overall potential skill_moves wage_eur
        international_reputation weak_foot pace shooting passing dribbling
        defending physic).params.map (fun p => (p.name, p.paramType)) =
      [("age", "INT64"), ("overall", "INT64"), ("potential", "INT64"),
       ("skill_moves", "INT64"), ("wage_eur", "INT64"),
       ("international_reputation", "INT64"), ("weak_foot", "INT64"),
       ("pace", "INT64"), ("shooting", "INT64"), ("passing", "INT64"),
       ("dribbling", "INT64"), ("defending", "INT64"), ("physic", "INT64")] ∧
    (sql_predict model age overall potential skill_moves wage_eur
        international_reputation weak_foot pace shooting passing dribbling
        defending physic).params.map ScalarQueryParameter.value =
      [age, overall, potential, skill_moves, wage_eur, international_reputation,
       weak_foot, pace, shooting, passing, dribbling, defending, physic] ∧
    (sql_predict model age overall potential skill_moves wage_eur
        international_reputation weak_foot pace shooting passing dribbling
        defending physic).params.length = 13 ∧
    (sql_predict model age overall potential skill_moves wage_eur
        international_reputation weak_foot pace shooting passing dribbling
        defending physic).inputRow =
      (sql_predict model age overall potential skill_moves wage_eur
        international_reputation weak_foot pace shooting passing dribbling
        defending physic).params.map (fun p => ("@" ++ p.name, p.name)) ∧
    (sql_predict model age overall potential skill_moves wage_eur
        international_reputation weak_foot pace shooting passing dribbling
        defending physic).model = model ∧
    (∀ r rest, predict_value_result (r :: rest) = predict_value_result [r]) ∧
    (∀ r rest, predict_value_result (r :: rest) =
      (r.find? fun c => c.1 == "predicted_value_eur").map Prod.snd) :=
  ⟨rfl, rfl, rfl, rfl, rfl, fun _ _ => rfl, fun _ _ => rfl⟩

/-- C7 counterexample: in an environment where an explicit local
credential key file exists and the secret store also holds an entry, the
code resolves from the secret store — under the claimed three-step chain
the explicit local file would have had first priority. -/
theorem C7_counterexample_no_local_file_step :
    get_bq_client_and_project
        ⟨⟨true, "proj"⟩, some "/home/user/sa-key.json"⟩ =
      (CredSource.secretStore, "proj") ∧
    CredSource.secretStore ≠ CredSource.localFile "/home/user/sa-key.json" := by
  refine ⟨rfl, by decide⟩

/-- C7 amended: client construction resolves credential material via a
two-step priority chain — the hosted secret store entry
gcp_service_account when present, else the ambient default (with the
hard-coded fallback project) — and never from a local credential file
path, whether or not one exists. -/
theorem C7_credential_chain_two_step (env : CredentialEnv) :
    (env.secrets.hasGcpServiceAccount = true →
      get_bq_client_and_project env = (CredSource.secretStore, env.secrets.projectId)) ∧
    (env.secrets.hasGcpServiceAccount = false →
      get_bq_client_and_project env = (CredSource.ambientDefault, "big-query-fifa")) ∧
    (∀ path, (get_bq_client_and_project env).1 ≠ CredSource.localFile path) := by
  refine ⟨?_, ?_, ?_⟩
  · intro h
    simp [get_bq_client_and_project, h]
  · intro h
    simp [get_bq_client_and_project, h]
  · intro path
    unfold get_bq_client_and_project
    split_ifs <;> simp

/-- Witness for C7 at a concrete environment without a secret-store
entry but with a local key file: the ambient default is used. -/
theorem C7_credential_chain_two_step_witness :
    get_bq_client_and_project ⟨⟨false, "x"⟩, some "/home/user/sa-key.json"⟩ =
      (CredSource.ambientDefault, "big-query-fifa") :=
  (C7_credential_chain_two_step ⟨⟨false, "x"⟩, some "/home/user/sa-key.json"⟩).2.1 rfl

/-- C8: whenever the prediction query fails, the handler stores None as
the predicted value (clearing any prior one), appends exactly one
warning, and signals that page rendering continues. -/
theorem C8_prediction_failure_recovery (prev : PredPageState) (e : String) :
    (predict_click prev (Except.error e)).1.pred_val = none ∧
    (predict_click prev (Except.error e)).1.warnings =
      prev.warnings ++ ["Prediction failed: " ++ e] ∧
    ("Prediction failed: " ++ e) ∈ (predict_click prev (Except.error e)).1.warnings ∧
    (predict_click prev (Except.error e)).2 = true := by
  refine ⟨rfl, rfl, ?_, rfl⟩
  simp [predict_click]

/-- C9: the prediction, bucket and Top-10 builders are deterministic —
in this embedding each is a pure function of its declared inputs (two
runs on equal inputs give equal outputs) and none of their queries
carries the randomized ordering — while the scatter builder's query,
whenever built, is ordered by RAND with no seed. -/
theorem C9_builder_determinism_scatter_randomized (available : List String) :
    (∀ vs₁ vs₂ : List (Option Int), vs₁ = vs₂ →
      sql_buckets_rows vs₁ = sql_buckets_rows vs₂) ∧
    sql_buckets_query.order.isRand = false ∧
    (∀ av₁ av₂ : List String, av₁ = av₂ → sql_top av₁ = sql_top av₂) ∧
    (sql_top available).order.isRand = false ∧
    (∀ model age overall potential skill_moves wage_eur international_reputation
        weak_foot pace shooting passing dribbling defending physic,
      sql_predict model age overall potential skill_moves wage_eur
          international_reputation weak_foot pace shooting passing dribbling
          defending physic =
        ⟨model,
         (predict_params age overall potential skill_moves wage_eur
           international_reputation weak_foot pace shooting passing dribbling
           defending physic).map (fun p => ("@" ++ p.name, p.name)),
         predict_params age overall potential skill_moves wage_eur
           international_reputation weak_foot pace shooting passing dribbling
           defending physic⟩) ∧
    (∀ q, sql_scatter available = some q → q.order = OrderBy.rand none ∧
      q.order.isRand = true) := by
  refine ⟨fun _ _ h => h ▸ rfl, rfl, fun _ _ h => h ▸ rfl, ?_, ?_, ?_⟩
  · unfold sql_top sql_top_first
    cases h1 : first_existing ["nationality_name", "nationality"] available with
    | some d => rfl
    | none =>
      cases h2 : first_existing ["club_name", "league_name"] available with
      | some d => rfl
      | none => rfl
  · intro model age overall potential skill_moves wage_eur international_reputation
      weak_foot pace shooting passing dribbling defending physic
    rfl
  · intro q hq
    cases hx : scatter_x_col available with
    | none => simp [sql_scatter, hx] at hq
    | some x =>
      unfold sql_scatter at hq
      rw [hx] at hq
      simp only [Option.map_some'] at hq
      cases hq
      exact ⟨rfl, rfl⟩

/-- Witness for C9 on a concrete column set containing overall: the
built scatter query carries the seedless randomized ordering. -/
theorem C9_builder_determinism_scatter_randomized_witness :
    ScatterQuery.order ⟨"overall", OrderBy.rand none, 2000⟩ = OrderBy.rand none :=
  ((C9_builder_determinism_scatter_randomized ["overall"]).2.2.2.2.2
    ⟨"overall", OrderBy.rand none, 2000⟩ (by decide)).1

/-- C10: for every set of available columns a Top-10 query is built —
in particular, when every optional dimension column is absent the
age-bracket query (needing no optional column) is built rather than
nothing — and the informational chart-skipped message, whose text blames
missing nationality/club/league columns, is shown exactly when the
executed query returns zero rows. -/
theorem C10_top_chart_not_skipped_on_missing_columns (available : List String)
    (run : TopQuery → List (String × Int × Nat)) :
    (first_existing ["nationality_name", "nationality"] available = none →
      first_existing ["club_name", "league_name"] available = none →
      sql_top available = ⟨.ageBracket, none, .ageCaseKey, 10⟩) ∧
    (top_chart available run = .info top_skipped_message ↔
      run (sql_top available) = []) ∧
    (run (sql_top available) ≠ [] →
      top_chart available run = .chart (top_label available)) := by
  refine ⟨?_, ?_, ?_⟩
  · intro h1 h2
    simp [sql_top, sql_top_first, h1, h2]
  · unfold top_chart
    rcases h : run (sql_top available) with _ | ⟨r, rs⟩
    · simp [h]
    · simp [h]
  · intro h
    unfold top_chart
    rcases hr : run (sql_top available) with _ | ⟨r, rs⟩
    · exact absurd hr h
    · simp [hr]

/-- Witness for C10: with no optional dimension column and a warehouse
returning zero rows, the chart area shows the skip message. -/
theorem C10_top_chart_not_skipped_on_missing_columns_witness :
    top_chart ["value_eur"] (fun _ => []) = .info top_skipped_message :=
  ((C10_top_chart_not_skipped_on_missing_columns ["value_eur"] (fun _ => [])).2.1).mpr rfl
